import Mathlib

/-!
Verification of the raw-mode guard of the termion repository (src/raw.rs).

The file shallowly embeds the two backends of the raw-mode lifecycle:

* the structure-based backend (non-redox): `into_raw_mode` captures the
  terminal attribute structure through `get_terminal_attr`, derives a raw
  variant with `cfmakeraw`, applies it with `set_terminal_attr`, and returns a
  `RawTerminal` guard holding the pre-raw snapshot `prev_ios`; the Drop impl
  re-applies `prev_ios` and discards the exit status;
* the sequence-based backend (redox): `into_raw_mode` writes the control
  sequence CSI `r` to the wrapped output channel and the Drop impl writes
  CSI `R`, discarding the result.

The platform calls (`get_terminal_attr`, `set_terminal_attr`, `cfmakeraw`) and
the `TermControl::csi` helper are not part of the repository sources; they are
modelled from the specification, as marked on each of their doc comments.
Fault injection is explicit: each fallible OS call takes the exit status the
OS would report as an argument, and the in-memory test channel `BufChan`
carries a flag making its writes fail.
-/

namespace Termion

/-- Terminal attribute structure (the `Termios` snapshot type). The concrete
fields model the POSIX attribute structure: input, output, control and local
mode flags plus the control-character array. -/
structure Termios where
  c_iflag : Nat
  c_oflag : Nat
  c_cflag : Nat
  c_lflag : Nat
  c_cc : List Nat
deriving DecidableEq

/-- Modelled from the spec: `cfmakeraw` (the derive-raw step; its platform
implementation is not among the repository sources) is a pure transformation
producing a snapshot with canonical raw-mode flags applied — no input
processing, no output processing, no echo or line buffering or
signal-generating characters in the local flags, and 8-bit transparent
control flags. It never fails. -/
def cfmakeraw (t : Termios) : Termios :=
  { c_iflag := 0, c_oflag := 0, c_cflag := t.c_cflag ||| 48, c_lflag := 0,
    c_cc := t.c_cc }

/-- One observable interaction with the terminal-control OS facility. -/
inductive OsEvent where
  | getAttr (result : Termios) (status : Nat)
  | setAttr (arg : Termios) (status : Nat)
deriving DecidableEq

/-- The process-wide terminal state: the current attribute structure owned by
the OS, together with the trace of terminal-control calls issued so far. -/
structure TermState where
  attrs : Termios
  trace : List OsEvent
deriving DecidableEq

/-- Modelled from the spec: the platform call reading the controlling terminal
attribute structure (the capture step; not among the repository sources).
It returns the current structure and an exit status; a non-zero status
reports failure. The status is decided by the OS and is supplied here as the
fault-injection argument `status`. The call never mutates the attributes. -/
def get_terminal_attr (s : TermState) (status : Nat) : (Termios × Nat) × TermState :=
  ((s.attrs, status), { s with trace := s.trace ++ [OsEvent.getAttr s.attrs status] })

/-- Modelled from the spec: the platform call writing an attribute structure
to the terminal (the apply step; not among the repository sources). A zero
exit status means the structure was fully applied; on a non-zero status the
call fully fails and the terminal attributes are unchanged (the spec states
the OS call either fully succeeds or fully fails). -/
def set_terminal_attr (s : TermState) (t : Termios) (status : Nat) : Nat × TermState :=
  if status = 0 then
    (0, { attrs := t, trace := s.trace ++ [OsEvent.setAttr t 0] })
  else
    (status, { s with trace := s.trace ++ [OsEvent.setAttr t status] })

/-- The two error values the conversion entry point can produce. In the code
both are built as `Error::new(ErrorKind::Other, msg)`; the two constructors
here correspond to the two distinct messages, which the spec names
`ReadFailed` and `WriteFailed`. -/
inductive AttrError where
  | ReadFailed
  | WriteFailed
deriving DecidableEq

/-- The message the code attaches to each error value. -/
def AttrError.message : AttrError → String
  | .ReadFailed => "Unable to get Termios attribute."
  | .WriteFailed => "Unable to set Termios attribute."

/-- The raw-mode guard of the structure-based backend (src/raw.rs lines
23-27): the pre-raw snapshot together with the owned output channel. -/
structure RawTerminal (W : Type) where
  prev_ios : Termios
  output : W
deriving DecidableEq

/-- The conversion entry point of the structure-based backend, src/raw.rs
lines 70-93. Reads the attributes (recording the returned structure before
the status check, as the code clones `prev_ios` before testing `exit`),
fails with `ReadFailed` on a non-zero capture status, otherwise derives the
raw variant with `cfmakeraw`, applies it, fails with `WriteFailed` on a
non-zero apply status, and otherwise returns the guard holding the pre-raw
snapshot and the output channel. The terminal state is returned alongside in
every case. -/
def into_raw_mode {W : Type} (self : W) (s : TermState) (getStatus setStatus : Nat) :
    Except AttrError (RawTerminal W) × TermState :=
  let r1 := get_terminal_attr s getStatus
  let ios := r1.1.1
  let ec := r1.1.2
  let s1 := r1.2
  let prev_ios := ios
  if ec ≠ 0 then
    (.error AttrError.ReadFailed, s1)
  else
    let ios2 := cfmakeraw ios
    let r2 := set_terminal_attr s1 ios2 setStatus
    if r2.1 ≠ 0 then
      (.error AttrError.WriteFailed, r2.2)
    else
      (.ok { prev_ios := prev_ios, output := self }, r2.2)

/-- The Drop impl of the structure-based backend, src/raw.rs lines 29-35:
one `set_terminal_attr` call re-applying the stored snapshot. The exit status
of the call is discarded (the Rust code ignores the returned int) and the
function returns normally in every case: its result type has no error
component. `dropStatus` is the fault-injection status of this restore call. -/
def RawTerminal.drop {W : Type} (g : RawTerminal W) (s : TermState) (dropStatus : Nat) :
    TermState :=
  (set_terminal_attr s g.prev_ios dropStatus).2

/-- The Write impl for the guard, src/raw.rs lines 50-54: `write` forwards to
`self.output.write(buf)`. The wrapped channel is abstract: `wr` is its write
operation, returning the result and the updated channel. -/
def RawTerminal.write {W : Type} (wr : W → List Nat → Except Nat Nat × W)
    (g : RawTerminal W) (buf : List Nat) : Except Nat Nat × RawTerminal W :=
  let r := wr g.output buf
  (r.1, { g with output := r.2 })

/-- The Write impl for the guard, src/raw.rs lines 55-57: `flush` forwards to
`self.output.flush()`. -/
def RawTerminal.flush {W : Type} (fl : W → Except Nat Unit × W)
    (g : RawTerminal W) : Except Nat Unit × RawTerminal W :=
  let r := fl g.output
  (r.1, { g with output := r.2 })

/-- A full lifecycle on the structure-based backend: the conversion entry
point, then — exactly when a guard was created — one release of that guard.
Rust ownership runs the Drop impl exactly once per created guard, on every
exit path; a failed conversion creates no guard and hence runs no Drop. -/
def session {W : Type} (self : W) (s : TermState) (getStatus setStatus dropStatus : Nat) :
    TermState :=
  let r := into_raw_mode self s getStatus setStatus
  match r.1 with
  | .ok g => RawTerminal.drop g r.2 dropStatus
  | .error _ => r.2

/-- The raw-mode guard of the sequence-based (redox) backend, src/raw.rs
lines 6-9: only the owned output channel, no snapshot field. -/
structure RawTerminalRedox (W : Type) where
  output : W
deriving DecidableEq

/-- Modelled from the spec: `TermControl::csi` (not among the repository
sources) writes a control escape sequence — the CSI introducer bytes 27 and
91 followed by the given control bytes — directly to the wrapped output
channel; it can fail only on a write error of the channel itself. -/
def csi {W : Type} (wr : W → List Nat → Except Nat Nat × W) (self : W)
    (b : List Nat) : Except Nat Nat × W :=
  wr self (27 :: 91 :: b)

/-- The conversion entry point of the sequence-based backend, src/raw.rs
lines 94-101: `self.csi("r").map(|_| RawTerminal { output: self })`. The
control byte of the enter sequence is 114 (lowercase r). On a successful
write the guard owns the channel in its post-write state; on a write error
that error is returned unchanged and no guard is constructed. -/
def into_raw_mode_redox {W : Type} (wr : W → List Nat → Except Nat Nat × W)
    (self : W) : Except Nat (RawTerminalRedox W) :=
  let r := csi wr self [114]
  match r.1 with
  | .ok _ => .ok { output := r.2 }
  | .error e => .error e

/-- The Drop impl of the sequence-based backend, src/raw.rs lines 11-17:
`self.csi(b"R");` — one write of the control sequence with byte 82
(uppercase R), whose result is discarded; the function returns normally in
every case. -/
def RawTerminalRedox.drop {W : Type} (wr : W → List Nat → Except Nat Nat × W)
    (g : RawTerminalRedox W) : RawTerminalRedox W :=
  { output := (csi wr g.output [82]).2 }

/-- An in-memory output channel for concrete runs: the bytes successfully
written, a fault-injection flag making every write fail while it is set, and
the log of all write attempts (successful or not). -/
structure BufChan where
  buf : List Nat
  fails : Bool
  attempts : List (List Nat)
deriving DecidableEq

/-- The write operation of `BufChan`: appends the bytes on success, reports
error code 5 when the fault-injection flag is set, and logs the attempt
either way. -/
def bufWrite (c : BufChan) (bs : List Nat) : Except Nat Nat × BufChan :=
  if c.fails then
    (.error 5, { c with attempts := c.attempts ++ [bs] })
  else
    (.ok bs.length,
      { buf := c.buf ++ bs, fails := false, attempts := c.attempts ++ [bs] })

/-- A full lifecycle on the structure-based backend over a `BufChan`,
returning the channel as observed after the lifecycle together with the
terminal state: on a successful conversion the channel is the one the guard
owned, and the release is run; on a failed conversion the channel is
returned as the caller got it back. -/
def sessionChan (c : BufChan) (s : TermState) (getStatus setStatus dropStatus : Nat) :
    BufChan × TermState :=
  let r := into_raw_mode c s getStatus setStatus
  match r.1 with
  | .ok g => (g.output, RawTerminal.drop g r.2 dropStatus)
  | .error _ => (c, r.2)

/-- A sample attribute structure for concrete runs. -/
def t0 : Termios :=
  { c_iflag := 1, c_oflag := 2, c_cflag := 3, c_lflag := 4, c_cc := [0, 1] }

/-- A sample terminal state for concrete runs. -/
def s0 : TermState := { attrs := t0, trace := [] }

/-- A sample healthy channel for concrete runs. -/
def c0 : BufChan := { buf := [], fails := false, attempts := [] }

/-- A sample failing channel for concrete runs. -/
def cFail : BufChan := { buf := [], fails := true, attempts := [] }

/-- C1: for every writable output channel, `into_raw_mode` returns a guard
exactly when both the capture of the current terminal attributes and the
application of the derived raw attributes succeed (both OS calls report
status zero); a non-zero capture status yields the `ReadFailed` error and a
non-zero apply status yields the `WriteFailed` error, and in either failure
case no guard is created. -/
theorem into_raw_mode_result {W : Type} (self : W) (s : TermState) (gE sE : Nat) :
    ((∃ g, (into_raw_mode self s gE sE).1 = .ok g) ↔ (gE = 0 ∧ sE = 0))
    ∧ (gE ≠ 0 → (into_raw_mode self s gE sE).1 = .error AttrError.ReadFailed)
    ∧ (gE = 0 → sE ≠ 0 → (into_raw_mode self s gE sE).1 = .error AttrError.WriteFailed) := by
  by_cases hg : gE = 0 <;> by_cases hs : sE = 0 <;>
    simp [into_raw_mode, get_terminal_attr, set_terminal_attr, hg, hs]

/-- Witness for C1: concrete failing runs of both kinds. -/
theorem into_raw_mode_result_witness :
    (into_raw_mode (0 : Nat) s0 1 0).1 = .error AttrError.ReadFailed
    ∧ (into_raw_mode (0 : Nat) s0 0 1).1 = .error AttrError.WriteFailed :=
  ⟨(into_raw_mode_result (0 : Nat) s0 1 0).2.1 (by decide),
   (into_raw_mode_result (0 : Nat) s0 0 1).2.2 rfl (by decide)⟩

/-- C2: whenever `into_raw_mode` fails — at the capture step or at the apply
step — the terminal attribute structure after the call equals the one before
the call: no partial state change has occurred. -/
theorem into_raw_mode_failure_preserves_attrs {W : Type} (self : W) (s : TermState)
    (gE sE : Nat) (e : AttrError)
    (h : (into_raw_mode self s gE sE).1 = .error e) :
    ((into_raw_mode self s gE sE).2).attrs = s.attrs := by
  by_cases hg : gE = 0 <;> by_cases hs : sE = 0 <;>
    simp [into_raw_mode, get_terminal_attr, set_terminal_attr, hg, hs] at h ⊢

/-- Witness for C2: a concrete failed apply leaves the attributes intact. -/
theorem into_raw_mode_failure_preserves_attrs_witness :
    ((into_raw_mode (0 : Nat) s0 0 7).2).attrs = s0.attrs :=
  into_raw_mode_failure_preserves_attrs (0 : Nat) s0 0 7 AttrError.WriteFailed rfl

/-- C3: every guard returned by a successful `into_raw_mode` stores in
`prev_ios` exactly the attribute structure the capture step read (the value
of the terminal before the raw transformation), and this value is preserved
by every guard operation (write and flush), so it holds for the whole guard
lifetime. -/
theorem guard_stores_captured_snapshot {W : Type} (self : W) (s : TermState)
    (gE sE : Nat) (g : RawTerminal W)
    (h : (into_raw_mode self s gE sE).1 = .ok g) :
    g.prev_ios = s.attrs
    ∧ (∀ (wr : W → List Nat → Except Nat Nat × W) (buf : List Nat),
        ((RawTerminal.write wr g buf).2).prev_ios = s.attrs)
    ∧ (∀ (fl : W → Except Nat Unit × W),
        ((RawTerminal.flush fl g).2).prev_ios = s.attrs) := by
  by_cases hg : gE = 0 <;> by_cases hs : sE = 0 <;>
    simp [into_raw_mode, get_terminal_attr, set_terminal_attr, hg, hs] at h
  subst h
  exact ⟨rfl, fun wr buf => rfl, fun fl => rfl⟩

/-- Witness for C3: the guard of a concrete successful run stores the
captured snapshot. -/
theorem guard_stores_captured_snapshot_witness :
    ({ prev_ios := t0, output := (0 : Nat) } : RawTerminal Nat).prev_ios = s0.attrs :=
  (guard_stores_captured_snapshot (0 : Nat) s0 0 0
    { prev_ios := t0, output := (0 : Nat) } rfl).1

/-- C4: for every byte buffer and every wrapped channel, a write or flush
issued through the guard returns the same result and leaves the channel in
the same state as the same operation issued directly on the wrapped channel:
the guard forwards both operations unchanged and adds no buffering or
transformation. -/
theorem write_flush_pass_through {W : Type}
    (wr : W → List Nat → Except Nat Nat × W) (fl : W → Except Nat Unit × W)
    (g : RawTerminal W) (buf : List Nat) :
    (RawTerminal.write wr g buf).1 = (wr g.output buf).1
    ∧ ((RawTerminal.write wr g buf).2).output = (wr g.output buf).2
    ∧ (RawTerminal.flush fl g).1 = (fl g.output).1
    ∧ ((RawTerminal.flush fl g).2).output = (fl g.output).2 := by
  exact ⟨rfl, rfl, rfl, rfl⟩

/-- C5: releasing a guard performs the restore with the stored pre-raw
snapshot exactly once — the release appends exactly one `setAttr` event
carrying `prev_ios` to the trace, whatever the restore status — and a failed
conversion, which creates no guard, adds no release event at all: the
session ends in the state the failed conversion left. -/
theorem restore_exactly_once {W : Type} (self : W) (s : TermState) (gE sE dE : Nat) :
    (∀ g : RawTerminal W, (into_raw_mode self s gE sE).1 = .ok g →
        (RawTerminal.drop g (into_raw_mode self s gE sE).2 dE).trace
          = ((into_raw_mode self s gE sE).2).trace ++ [OsEvent.setAttr g.prev_ios dE])
    ∧ (∀ e : AttrError, (into_raw_mode self s gE sE).1 = .error e →
        session self s gE sE dE = (into_raw_mode self s gE sE).2) := by
  constructor
  · intro g _
    by_cases h0 : dE = 0 <;> simp [RawTerminal.drop, set_terminal_attr, h0]
  · intro e he
    unfold session
    simp only [he]

/-- Witness for C5: a concrete release appends one restore event, and a
concrete failed conversion triggers none. -/
theorem restore_exactly_once_witness :
    (RawTerminal.drop { prev_ios := t0, output := (0 : Nat) }
        (into_raw_mode (0 : Nat) s0 0 0).2 3).trace
      = ((into_raw_mode (0 : Nat) s0 0 0).2).trace ++ [OsEvent.setAttr t0 3]
    ∧ session (0 : Nat) s0 1 0 0 = (into_raw_mode (0 : Nat) s0 1 0).2 :=
  ⟨(restore_exactly_once (0 : Nat) s0 0 0 3).1
      { prev_ios := t0, output := (0 : Nat) } rfl,
   (restore_exactly_once (0 : Nat) s0 1 0 0).2 AttrError.ReadFailed rfl⟩

/-- C6: on the structure-based backend, a full lifecycle — capture, derive
raw, apply, then restore at guard release, with every OS call succeeding and
no external mutation in between — leaves the terminal attribute structure
bit-identical to the originally captured snapshot, which is the attribute
structure the terminal held before the call. -/
theorem capture_apply_restore_round_trip {W : Type} (self : W) (s : TermState) :
    (session self s 0 0 0).attrs = s.attrs := by
  simp [session, into_raw_mode, get_terminal_attr, set_terminal_attr,
    RawTerminal.drop]

/-- C7: on the sequence-based backend the conversion writes the enter
sequence CSI with control byte 114 (lowercase r) to the output channel,
while the release writes CSI with control byte 82 (uppercase R): the two
control bytes differ, so the release sequence is keyed to a different
control byte and does not mirror the enter sequence. -/
theorem redox_enter_reset_bytes :
    into_raw_mode_redox bufWrite c0
      = .ok { output :=
          { buf := [27, 91, 114], fails := false, attempts := [[27, 91, 114]] } }
    ∧ (RawTerminalRedox.drop bufWrite { output := c0 }).output.buf = [27, 91, 82]
    ∧ (114 : Nat) ≠ 82 :=
  ⟨rfl, rfl, by decide⟩

/-- C8: a failure of the restore during guard release is never propagated
and triggers no second attempt: on the structure-based backend the release
performs exactly one `setAttr` attempt (one trace event carrying the stored
snapshot, whatever the status) and a failing attempt leaves the attributes
unchanged while the release still returns normally; on the sequence-based
backend the release performs exactly one write attempt of the reset
sequence, its result discarded, also when the channel write fails. -/
theorem restore_failure_absorbed {W : Type} (g : RawTerminal W) (s : TermState)
    (dE : Nat) (gr : RawTerminalRedox BufChan) :
    (RawTerminal.drop g s dE).trace = s.trace ++ [OsEvent.setAttr g.prev_ios dE]
    ∧ (dE ≠ 0 → (RawTerminal.drop g s dE).attrs = s.attrs)
    ∧ ((RawTerminalRedox.drop bufWrite gr).output.attempts
        = gr.output.attempts ++ [[27, 91, 82]]) := by
  refine ⟨?_, ?_, ?_⟩
  · by_cases h0 : dE = 0 <;> simp [RawTerminal.drop, set_terminal_attr, h0]
  · intro hne
    simp [RawTerminal.drop, set_terminal_attr, hne]
  · cases hf : gr.output.fails <;>
      simp [RawTerminalRedox.drop, csi, bufWrite, hf]

/-- Witness for C8: a concrete failing restore is absorbed. -/
theorem restore_failure_absorbed_witness :
    (RawTerminal.drop { prev_ios := t0, output := (0 : Nat) } s0 9).attrs = s0.attrs :=
  (restore_failure_absorbed { prev_ios := t0, output := (0 : Nat) } s0 9
    { output := cFail }).2.1 (by decide)

/-- C9: on the sequence-based backend, `into_raw_mode` fails exactly when
the write of the enter sequence to the wrapped channel fails, returning that
write error unchanged (there is no capture step that could fail), and in
that case no guard is constructed; when the write succeeds a guard owning
the post-write channel is returned. -/
theorem redox_fails_only_on_write_error {W : Type}
    (wr : W → List Nat → Except Nat Nat × W) (self : W) :
    (∀ e : Nat, into_raw_mode_redox wr self = .error e
        ↔ (wr self [27, 91, 114]).1 = .error e)
    ∧ (∀ n : Nat, (wr self [27, 91, 114]).1 = .ok n →
        into_raw_mode_redox wr self = .ok { output := (wr self [27, 91, 114]).2 }) := by
  constructor
  · intro e
    cases h : (wr self [27, 91, 114]).1 <;>
      simp [into_raw_mode_redox, csi, h]
  · intro n h
    simp [into_raw_mode_redox, csi, h]

/-- Witness for C9: a concrete failing channel makes the conversion fail
with the write error, and a concrete healthy channel yields a guard. -/
theorem redox_fails_only_on_write_error_witness :
    (into_raw_mode_redox bufWrite cFail = .error 5
      ↔ (bufWrite cFail [27, 91, 114]).1 = .error 5)
    ∧ into_raw_mode_redox bufWrite c0
        = .ok { output := (bufWrite c0 [27, 91, 114]).2 } :=
  ⟨(redox_fails_only_on_write_error bufWrite cFail).1 5,
   (redox_fails_only_on_write_error bufWrite c0).2 3 rfl⟩

/-- C10: on the structure-based backend neither the conversion nor the
release writes or even attempts any byte on the wrapped channel — after a
whole lifecycle the channel buffer and its attempt log are unchanged for any
combination of OS statuses — and a write issued by the caller through the
guard is the only channel activity, appending exactly the bytes of that
write. -/
theorem structure_backend_writes_no_bytes (c : BufChan) (s : TermState)
    (gE sE dE : Nat) (bs : List Nat) :
    (sessionChan c s gE sE dE).1.buf = c.buf
    ∧ (sessionChan c s gE sE dE).1.attempts = c.attempts
    ∧ (∀ g : RawTerminal BufChan, (into_raw_mode c s gE sE).1 = .ok g →
        ((RawTerminal.write bufWrite g bs).2).output.attempts = c.attempts ++ [bs]) := by
  refine ⟨?_, ?_, ?_⟩
  case _ | _ =>
    by_cases hg : gE = 0 <;> by_cases hs : sE = 0 <;>
      simp [sessionChan, into_raw_mode, get_terminal_attr, set_terminal_attr,
        RawTerminal.drop, hg, hs]
  · intro g h
    by_cases hg : gE = 0 <;> by_cases hs : sE = 0 <;>
      simp [into_raw_mode, get_terminal_attr, set_terminal_attr, hg, hs] at h
    subst h
    cases hf : c.fails <;> simp [RawTerminal.write, bufWrite, hf]

/-- Witness for C10: a concrete write through the guard of a successful
conversion is logged as the only channel attempt. -/
theorem structure_backend_writes_no_bytes_witness :
    ((RawTerminal.write bufWrite { prev_ios := t0, output := c0 } [104, 105]).2).output.attempts
      = c0.attempts ++ [[104, 105]] :=
  (structure_backend_writes_no_bytes c0 s0 0 0 0 [104, 105]).2.2
    { prev_ios := t0, output := c0 } rfl

end Termion
